import Mathlib

/-!
Shallow embedding of the pre-trade risk gating engine in
`src/risk/risk_manager.py` of TraderMCP, together with proofs about the
specified behaviour of its checks.

Modelling conventions:
* Python floats are modelled as exact rationals (`Rat`); none of the
  verified properties depends on binary floating-point rounding.
* A Python `dict` like `account_summary` is modelled as a record whose
  fields are `Option Rat`: `none` means the tag (or its `"value"` entry)
  is absent, in which case the source's `.get(..., default)` default
  applies.
* `Optional[float]` truthiness (`if price:`) is `pyTruthy`: `None` and
  `0` are falsy, as in Python.
* Python's raising float division is `pydiv`, returning
  `Except String Rat`; checks that divide without a guard therefore live
  in the `Except String` monad, and `check_all` returns
  `Except String (List RiskCheckResult)`: `.error` models an uncaught
  `ZeroDivisionError` escaping `check_all`.
* Position objects always carry a `contract` attribute here (they are
  produced well-typed by the broker API), so the source's
  `hasattr(pos, 'contract')` guards are always true and are dropped.
* f-string numeric interpolations (`f"{x:.1f}"`) are rendered with
  `toString` of the exact rational; no claim depends on the digits.
-/

/-- Severity levels of `RiskLevel` in the source. -/
inductive RiskLevel where
  | pass
  | warning
  | block
deriving DecidableEq

/-- A scalar diagnostic value stored in a result's `details` dict. -/
inductive DetailVal where
  | ofRat (q : Rat)
  | ofStr (s : String)
  | ofBool (b : Bool)
deriving DecidableEq

/-- `RiskCheckResult` dataclass: `details = []` models `details = None`. -/
structure RiskCheckResult where
  check_name : String
  level : RiskLevel
  message : String
  details : List (String × DetailVal)
deriving DecidableEq

/-- The risk-relevant fields of the application `Config` (env defaults
live in `defaultConfig`). -/
structure RiskConfig where
  risk_max_single_position_pct : Rat
  risk_max_total_position_pct : Rat
  risk_max_drawdown_pct : Rat
  risk_max_option_position_pct : Rat
  risk_allow_margin : Bool
  risk_require_stop_loss : Bool
  risk_high_volatility_threshold : Rat
  risk_bond_collateral_multiplier : Rat
deriving DecidableEq

/-- The defaults declared in `src/config.py`. -/
def defaultConfig : RiskConfig :=
  ⟨20, 85, 10, 10, false, true, 50, 95/100⟩

/-- The `account_summary` dict: each field is the `"value"` entry of the
corresponding tag, `none` when the tag (or its value) is absent. -/
structure AccountSummary where
  netLiquidation : Option Rat
  excessLiquidity : Option Rat
  cashBalance : Option Rat
deriving DecidableEq

/-- An `ib_insync` contract as read by the risk manager. -/
structure Contract where
  symbol : String
  secType : String
deriving DecidableEq

/-- A position record: `position` is the signed quantity, `avgCost` the
average cost. -/
structure Position where
  contract : Contract
  position : Rat
  avgCost : Rat
deriving DecidableEq

/-- The `option_details` dict: `none` fields are absent keys, so the
source's `.get(key, default)` defaults apply. -/
structure OptionDetails where
  option_type : Option String
  right : Option String
  strike : Option Rat
  price : Option Rat
  implied_volatility : Option Rat
deriving DecidableEq

/-- Python truthiness of an `Optional[float]`: `None` and `0.0` are falsy. -/
def pyTruthy : Option Rat → Bool
  | none => false
  | some v => v ≠ 0

/-- Python truthiness of the optional `option_details` dict: `None` and
the empty dict are falsy, a dict with at least one key is truthy. -/
def detailsTruthy : Option OptionDetails → Bool
  | none => false
  | some d =>
      d.option_type.isSome || d.right.isSome || d.strike.isSome ||
        d.price.isSome || d.implied_volatility.isSome

/-- Python float division: raises `ZeroDivisionError` on a zero
denominator. -/
def pydiv (a b : Rat) : Except String Rat :=
  if b = 0 then .error "ZeroDivisionError" else .ok (a / b)

/-- `_check_stop_loss`. -/
def check_stop_loss (cfg : RiskConfig) (action : String)
    (stop_loss : Option Rat) : RiskCheckResult :=
  if !cfg.risk_require_stop_loss then
    ⟨"stop_loss_check", .pass, "Stop loss not required by configuration", []⟩
  else if action = "BUY" && !pyTruthy stop_loss then
    ⟨"stop_loss_check", .block, "Stop loss is required for all BUY orders",
      [("required", .ofBool true), ("provided", .ofBool false)]⟩
  else
    ⟨"stop_loss_check", .pass,
      if pyTruthy stop_loss then
        "Stop loss check passed: " ++ toString (stop_loss.getD 0)
      else "SELL order (no stop loss required)", []⟩

/-- `_check_margin_usage`: note the `1` is the `.get` default for a
missing `NetLiquidation` tag, not a replacement for a zero value. -/
def check_margin_usage (cfg : RiskConfig) (account_summary : AccountSummary) :
    RiskCheckResult :=
  if !cfg.risk_allow_margin then
    let excess_liquidity := account_summary.excessLiquidity.getD 0
    let net_liquidation := account_summary.netLiquidation.getD 1
    if excess_liquidity < net_liquidation * (1/2) then
      ⟨"margin_check", .block, "Margin trading is not allowed",
        [("excess_liquidity", .ofRat excess_liquidity),
         ("net_liquidation", .ofRat net_liquidation)]⟩
    else
      ⟨"margin_check", .pass, "No margin usage detected", []⟩
  else
    ⟨"margin_check", .pass, "No margin usage detected", []⟩

/-- The `for pos in current_positions` loop of `_check_position_size`:
the last matching position's `position * avgCost` wins, `0` if none. -/
def existing_position_value (symbol : String) (ps : List Position) : Rat :=
  ps.foldl
    (fun acc pos =>
      if pos.contract.symbol = symbol then pos.position * pos.avgCost else acc)
    0

/-- `_check_position_size`: guards `net_liquidation = 0` explicitly, so it
is a total function. -/
def check_position_size (cfg : RiskConfig) (symbol action : String)
    (quantity : Int) (price : Option Rat) (account_summary : AccountSummary)
    (current_positions : List Position) : RiskCheckResult :=
  let net_liquidation := account_summary.netLiquidation.getD 0
  if net_liquidation = 0 then
    ⟨"position_size_check", .block, "Cannot determine account value", []⟩
  else
    let current_value := existing_position_value symbol current_positions
    let order_value :=
      if pyTruthy price then (quantity : Rat) * price.getD 0 else 0
    let new_value :=
      if action = "BUY" then |current_value| + order_value
      else |current_value| - order_value
    let position_pct := new_value / net_liquidation * 100
    if position_pct > cfg.risk_max_single_position_pct then
      ⟨"position_size_check", .block,
        "Position would exceed limit: " ++ toString position_pct ++ "% > " ++
          toString cfg.risk_max_single_position_pct ++ "%",
        [("symbol", .ofStr symbol),
         ("new_position_pct", .ofRat position_pct),
         ("limit_pct", .ofRat cfg.risk_max_single_position_pct),
         ("new_value", .ofRat new_value),
         ("net_liquidation", .ofRat net_liquidation)]⟩
    else
      ⟨"position_size_check", .pass,
        "Position size OK: " ++ toString position_pct ++ "% of portfolio",
        [("position_pct", .ofRat position_pct)]⟩

/-- `sum(abs(pos.position * pos.avgCost) for pos in current_positions)`. -/
def total_position_value_of (ps : List Position) : Rat :=
  ps.foldl (fun acc pos => acc + |pos.position * pos.avgCost|) 0

/-- `_check_total_position_limit`: the division by `net_liquidation`
(default `0` for a missing tag) is NOT guarded in the source. -/
def check_total_position_limit (cfg : RiskConfig) (action : String)
    (quantity : Int) (price : Option Rat) (account_summary : AccountSummary)
    (current_positions : List Position) : Except String RiskCheckResult := do
  let net_liquidation := account_summary.netLiquidation.getD 0
  let base := total_position_value_of current_positions
  let total_position_value :=
    if action = "BUY" && pyTruthy price then
      base + (quantity : Rat) * price.getD 0
    else base
  let q ← pydiv total_position_value net_liquidation
  let total_position_pct := q * 100
  if total_position_pct > cfg.risk_max_total_position_pct then
    pure ⟨"total_position_check", .block,
      "Total position would exceed limit: " ++ toString total_position_pct ++
        "% > " ++ toString cfg.risk_max_total_position_pct ++ "%",
      [("total_position_pct", .ofRat total_position_pct),
       ("limit_pct", .ofRat cfg.risk_max_total_position_pct)]⟩
  else
    pure ⟨"total_position_check", .pass,
      "Total position OK: " ++ toString total_position_pct ++ "% invested",
      [("total_position_pct", .ofRat total_position_pct)]⟩

/-- The position loop of `_check_max_drawdown`: returns the Warning result
of the first matching position whose drawdown exceeds the limit, `none`
when the loop falls through; dividing by a matching position's zero
`avgCost` raises. -/
def drawdown_loop (cfg : RiskConfig) (symbol : String) (current_price : Rat) :
    List Position → Except String (Option RiskCheckResult)
  | [] => .ok none
  | pos :: rest =>
      if pos.contract.symbol = symbol then do
        let avg_cost := pos.avgCost
        let d ← pydiv (current_price - avg_cost) avg_cost
        let drawdown_pct := d * 100
        if drawdown_pct < -cfg.risk_max_drawdown_pct then
          pure (some ⟨"drawdown_check", .warning,
            "Position exceeds max drawdown: " ++ toString drawdown_pct ++
              "% < -" ++ toString cfg.risk_max_drawdown_pct ++ "%",
            [("symbol", .ofStr symbol),
             ("drawdown_pct", .ofRat drawdown_pct),
             ("avg_cost", .ofRat avg_cost),
             ("current_price", .ofRat current_price)]⟩)
        else
          drawdown_loop cfg symbol current_price rest
      else
        drawdown_loop cfg symbol current_price rest

/-- `_check_max_drawdown`. -/
def check_max_drawdown (cfg : RiskConfig) (symbol : String)
    (current_price : Option Rat) (current_positions : List Position) :
    Except String RiskCheckResult :=
  if !pyTruthy current_price then
    .ok ⟨"drawdown_check", .pass, "No price provided for drawdown check", []⟩
  else do
    let r ← drawdown_loop cfg symbol (current_price.getD 0) current_positions
    match r with
    | some res => pure res
    | none =>
        pure ⟨"drawdown_check", .pass, "Drawdown within acceptable limits", []⟩

/-- `_check_volatility`: the source tests
`option_details and "implied_volatility" in option_details`, which holds
exactly when the dict is present and carries the key. -/
def check_volatility (cfg : RiskConfig) (symbol : String)
    (option_details : Option OptionDetails) : RiskCheckResult :=
  match option_details with
  | some d =>
      match d.implied_volatility with
      | some iv =>
          if iv > cfg.risk_high_volatility_threshold then
            ⟨"volatility_check", .warning,
              "High implied volatility detected: " ++ toString iv ++ "% > " ++
                toString cfg.risk_high_volatility_threshold ++ "%",
              [("implied_volatility", .ofRat iv)]⟩
          else
            ⟨"volatility_check", .pass, "Volatility check passed", []⟩
      | none => ⟨"volatility_check", .pass, "Volatility check passed", []⟩
  | none => ⟨"volatility_check", .pass, "Volatility check passed", []⟩

/-- `_check_liquidity`: a stub that always passes. -/
def check_liquidity (symbol : String) : RiskCheckResult :=
  ⟨"liquidity_check", .pass,
    "Liquidity check passed (requires implementation with volume data)", []⟩

/-- The summed absolute value of existing option positions in
`_check_option_risks`. -/
def current_option_value_of (ps : List Position) : Rat :=
  ps.foldl
    (fun acc pos =>
      if pos.contract.secType = "OPT" then
        acc + |pos.position * pos.avgCost|
      else acc)
    0

/-- The bond-equivalent collateral sum (`SGOV`, `BIL`, `SHV`) of
`_check_option_risks`. -/
def bond_value_of (ps : List Position) : Rat :=
  ps.foldl
    (fun acc pos =>
      if ["SGOV", "BIL", "SHV"].contains pos.contract.symbol then
        acc + |pos.position * pos.avgCost|
      else acc)
    0

/-- The covered-call test of `_check_option_risks`. -/
def has_underlying_shares (symbol : String) (quantity : Int)
    (ps : List Position) : Bool :=
  ps.any (fun pos =>
    pos.contract.symbol = symbol && pos.contract.secType = "STK" &&
      pos.position ≥ (quantity : Rat) * 100)

/-- `_check_option_risks`: missing/empty details short-circuit with one
Block; otherwise the option-position-limit result (whose division by
`net_liquidation` is unguarded) is followed by the naked-call or
naked-put result for Sell orders. -/
def check_option_risks (cfg : RiskConfig) (symbol action : String)
    (quantity : Int) (option_details : Option OptionDetails)
    (account_summary : AccountSummary) (current_positions : List Position) :
    Except String (List RiskCheckResult) :=
  if !detailsTruthy option_details then
    .ok [⟨"option_details_check", .block,
      "Option details required for option trading", []⟩]
  else do
    let d := option_details.getD ⟨none, none, none, none, none⟩
    let right := d.right.getD ""
    let strike := d.strike.getD 0
    let net_liquidation := account_summary.netLiquidation.getD 0
    let current_option_value := current_option_value_of current_positions
    let option_price := d.price.getD 0
    let new_option_value :=
      current_option_value + (quantity : Rat) * option_price * 100
    let q ← pydiv new_option_value net_liquidation
    let option_pct := q * 100
    let limit_result :=
      if option_pct > cfg.risk_max_option_position_pct then
        RiskCheckResult.mk "option_position_limit" .block
          ("Option position would exceed limit: " ++ toString option_pct ++
            "% > " ++ toString cfg.risk_max_option_position_pct ++ "%")
          [("option_pct", .ofRat option_pct)]
      else
        RiskCheckResult.mk "option_position_limit" .pass
          ("Option position OK: " ++ toString option_pct ++ "%") []
    let naked_results :=
      if action = "SELL" then
        if right = "C" then
          if !has_underlying_shares symbol quantity current_positions then
            [RiskCheckResult.mk "naked_call_check" .block
              "Naked call selling is prohibited. Must own underlying shares for covered call."
              [("required_shares", .ofRat ((quantity : Rat) * 100))]]
          else
            [RiskCheckResult.mk "covered_call_check" .pass
              "Covered call: sufficient underlying shares owned" []]
        else if right = "P" then
          let cash_balance := account_summary.cashBalance.getD 0
          let bond_value := bond_value_of current_positions
          let available_collateral :=
            cash_balance + bond_value * cfg.risk_bond_collateral_multiplier
          let required_collateral := (quantity : Rat) * strike * 100
          if available_collateral < required_collateral then
            [RiskCheckResult.mk "naked_put_collateral" .block
              ("Insufficient collateral for naked put: $" ++
                toString available_collateral ++ " < $" ++
                toString required_collateral)
              [("available", .ofRat available_collateral),
               ("required", .ofRat required_collateral),
               ("cash", .ofRat cash_balance),
               ("bond_value", .ofRat bond_value)]]
          else
            [RiskCheckResult.mk "naked_put_collateral" .pass
              ("Sufficient collateral for naked put: $" ++
                toString available_collateral) []]
        else []
      else []
    pure (limit_result :: naked_results)

/-- `RiskManager.check_all`: the result list is built by successive
appends — common checks for `place_order`, then the option group for
`OPT`, then the drawdown check for `SELL` — and a `ZeroDivisionError`
raised by any check aborts the whole call. -/
def check_all (cfg : RiskConfig) (operation symbol action : String)
    (quantity : Int) (price stop_loss : Option Rat)
    (account_summary : AccountSummary) (current_positions : List Position)
    (contract_type : String) (option_details : Option OptionDetails) :
    Except String (List RiskCheckResult) :=
  (if operation = "place_order" then
    check_total_position_limit cfg action quantity price account_summary
        current_positions >>= fun total =>
      pure
        ((if contract_type = "STK" then
            [check_stop_loss cfg action stop_loss]
          else []) ++
          [check_margin_usage cfg account_summary,
           check_position_size cfg symbol action quantity price
             account_summary current_positions,
           total,
           check_volatility cfg symbol option_details,
           check_liquidity symbol])
   else pure []) >>= fun common =>
  (if contract_type = "OPT" then
    check_option_risks cfg symbol action quantity option_details
      account_summary current_positions
   else pure []) >>= fun opt =>
  (if action = "SELL" then
    check_max_drawdown cfg symbol price current_positions >>= fun r =>
      pure [r]
   else pure []) >>= fun dd =>
  pure (common ++ opt ++ dd)

/-- `RiskManager.has_blocking_issues`. -/
def has_blocking_issues (results : List RiskCheckResult) : Bool :=
  results.any (fun r => r.level = RiskLevel.block)

/-- The option-position percentage computed by `_check_option_risks` when
the division succeeds. -/
def option_pct_of (quantity : Int) (d : OptionDetails) (s : AccountSummary)
    (ps : List Position) : Rat :=
  (current_option_value_of ps + (quantity : Rat) * d.price.getD 0 * 100) /
    s.netLiquidation.getD 0 * 100

/-- The collateral available to a naked put in `_check_option_risks`. -/
def available_collateral_of (cfg : RiskConfig) (s : AccountSummary)
    (ps : List Position) : Rat :=
  s.cashBalance.getD 0 + bond_value_of ps * cfg.risk_bond_collateral_multiplier

/-- The check names produced by the option-specific group (empty on a
`ZeroDivisionError`). -/
def option_names (cfg : RiskConfig) (symbol action : String) (quantity : Int)
    (od : Option OptionDetails) (s : AccountSummary) (ps : List Position) :
    List String :=
  ((check_option_risks cfg symbol action quantity od s ps).toOption.getD
    []).map RiskCheckResult.check_name

/-- A sample successful `place_order` evaluation, used to exhibit the
pipeline's result list on a concrete input. -/
def sampleResults : List RiskCheckResult :=
  (check_all defaultConfig "place_order" "A" "BUY" 1 none (some 5)
      ⟨some 1000, some 1000, none⟩ [] "STK" none).toOption.getD []

/-! ## Helper lemmas -/

theorem pydiv_of_ne (a b : Rat) (h : b ≠ 0) : pydiv a b = .ok (a / b) := by
  unfold pydiv
  rw [if_neg h]

theorem order_value_eq (q : Int) (price : Option Rat) :
    (if pyTruthy price then (q : Rat) * price.getD 0 else 0) =
      (q : Rat) * price.getD 0 := by
  cases price with
  | none => simp [pyTruthy]
  | some v =>
      by_cases hv : v = 0
      · simp [pyTruthy, hv]
      · simp [pyTruthy, hv]

/-! ## Theorems about the claims -/

/-- C10: for any operation other than `place_order` on a stock Buy,
`check_all` returns the empty list, so `has_blocking_issues` is false and
the operation is never blocked. -/
theorem claim_C10 (cfg : RiskConfig) (operation symbol : String) (q : Int)
    (price stop : Option Rat) (s : AccountSummary) (ps : List Position)
    (od : Option OptionDetails) (h : operation ≠ "place_order") :
    check_all cfg operation symbol "BUY" q price stop s ps "STK" od =
        .ok [] ∧
    has_blocking_issues [] = false := by
  constructor
  · unfold check_all
    rw [if_neg h]
    rfl
  · rfl

/-- Witness for C10 at a concrete non-`place_order` operation. -/
theorem claim_C10_witness :
    check_all defaultConfig "modify_order" "AAPL" "BUY" 1 none none
        ⟨none, none, none⟩ [] "STK" none = .ok [] ∧
    has_blocking_issues [] = false :=
  claim_C10 defaultConfig "modify_order" "AAPL" 1 none none
    ⟨none, none, none⟩ [] none (by decide)

/-- C5: the stop-loss check is always named `stop_loss_check`; a Buy with
no stop loss blocks exactly when the configuration requires a stop loss;
a Sell always passes; with `requireStopLoss = false` every intent
passes. -/
theorem claim_C5 (cfg : RiskConfig) (a : String) (sl : Option Rat) :
    (check_stop_loss cfg a sl).check_name = "stop_loss_check" ∧
    (check_stop_loss cfg "BUY" none).level =
      (if cfg.risk_require_stop_loss then RiskLevel.block
       else RiskLevel.pass) ∧
    (check_stop_loss cfg "SELL" sl).level = RiskLevel.pass ∧
    (cfg.risk_require_stop_loss = false →
      (check_stop_loss cfg a sl).level = RiskLevel.pass) := by
  cases hc : cfg.risk_require_stop_loss with
  | false => refine ⟨?_, ?_, ?_, fun _ => ?_⟩ <;> simp [check_stop_loss, hc]
  | true =>
      refine ⟨?_, ?_, ?_, ?_⟩
      · unfold check_stop_loss
        rw [hc]
        split
        · rfl
        · split <;> rfl
      · simp [check_stop_loss, hc, pyTruthy]
      · simp [check_stop_loss, hc]
      · intro hf
        exact absurd hf (by decide)

/-- Witness for C5: with `requireStopLoss = false`, even a Buy that
carries a stop loss passes the stop-loss check. -/
theorem claim_C5_witness :
    (check_stop_loss ⟨20, 85, 10, 10, false, false, 50, 95/100⟩ "BUY"
        (some 5)).level = RiskLevel.pass :=
  (claim_C5 ⟨20, 85, 10, 10, false, false, 50, 95/100⟩ "BUY"
    (some 5)).2.2.2 rfl

/-- C6 (amended): the margin check blocks iff margin is disallowed and
`excessLiquidity < netLiquidation * 0.5`, where the fallback divisor `1`
applies only when the `NetLiquidation` tag is missing — a present zero
value is used as-is. -/
theorem claim_C6_amended (cfg : RiskConfig) (s : AccountSummary) :
    (check_margin_usage cfg s).level =
      (if cfg.risk_allow_margin = false ∧
          s.excessLiquidity.getD 0 < s.netLiquidation.getD 1 * (1/2) then
        RiskLevel.block
       else RiskLevel.pass) := by
  cases hm : cfg.risk_allow_margin with
  | true => simp [check_margin_usage, hm]
  | false =>
      unfold check_margin_usage
      rw [hm]
      rw [if_pos (show ((!false : Bool) = true) from rfl)]
      by_cases hlt :
          s.excessLiquidity.getD 0 < s.netLiquidation.getD 1 * (1/2)
      · rw [if_pos hlt, if_pos (And.intro rfl hlt)]
      · rw [if_neg hlt, if_neg (fun hc => hlt hc.2)]

/-- C6 (counterexample): with a present-but-zero `NetLiquidation` value
and `excessLiquidity = 1/4`, the check passes although the claimed rule
("a zero netLiquidation is replaced by 1 before the comparison") demands
a Block, since `1/4 < 0.5 * 1`. -/
theorem claim_C6_counterexample :
    ¬(((check_margin_usage defaultConfig
          ⟨some 0, some (1/4), none⟩).level = RiskLevel.block) ↔
        ((1 : Rat)/4 < 1/2 * 1)) := by
  have h : (check_margin_usage defaultConfig
      ⟨some 0, some (1/4), none⟩).level = RiskLevel.pass := by
    with_unfolding_all rfl
  rw [h]
  intro hiff
  exact absurd (hiff.mpr (by norm_num)) (by decide)

/-- C3: the single-position concentration check blocks iff the projected
position percentage `newValue / netLiquidation * 100` strictly exceeds
the limit, where `newValue = |existing| + quantity * (price or 0)` for
Buy and `|existing| - quantity * (price or 0)` for Sell, and blocks with
"cannot determine account value" when `netLiquidation = 0`. -/
theorem claim_C3 (cfg : RiskConfig) (symbol action : String) (q : Int)
    (price : Option Rat) (s : AccountSummary) (ps : List Position) :
    (check_position_size cfg symbol action q price s ps).check_name =
      "position_size_check" ∧
    (check_position_size cfg symbol action q price s ps).level =
      (if s.netLiquidation.getD 0 = 0 then RiskLevel.block
       else if (if action = "BUY" then
              |existing_position_value symbol ps| + (q : Rat) * price.getD 0
            else
              |existing_position_value symbol ps| -
                (q : Rat) * price.getD 0) /
              s.netLiquidation.getD 0 * 100 >
            cfg.risk_max_single_position_pct then
         RiskLevel.block
       else RiskLevel.pass) ∧
    (s.netLiquidation.getD 0 = 0 →
      (check_position_size cfg symbol action q price s ps).message =
        "Cannot determine account value") := by
  simp only [check_position_size, order_value_eq]
  by_cases h0 : s.netLiquidation.getD 0 = 0
  · simp [if_pos h0]
  · simp only [if_neg h0]
    refine ⟨?_, ?_, fun hc => absurd hc h0⟩
    · by_cases hp :
          (if action = "BUY" then
            |existing_position_value symbol ps| + (q : Rat) * price.getD 0
          else
            |existing_position_value symbol ps| - (q : Rat) * price.getD 0) /
              s.netLiquidation.getD 0 * 100 >
            cfg.risk_max_single_position_pct
      · rw [if_pos hp]
      · rw [if_neg hp]
    · by_cases hp :
          (if action = "BUY" then
            |existing_position_value symbol ps| + (q : Rat) * price.getD 0
          else
            |existing_position_value symbol ps| - (q : Rat) * price.getD 0) /
              s.netLiquidation.getD 0 * 100 >
            cfg.risk_max_single_position_pct
      · rw [if_pos hp, if_pos hp]
      · rw [if_neg hp, if_neg hp]

theorem ok_bind {ε α β : Type} (x : α) (f : α → Except ε β) :
    (Except.ok x : Except ε α) >>= f = f x := rfl

theorem error_bind {ε α β : Type} (e : ε) (f : α → Except ε β) :
    (Except.error e : Except ε α) >>= f = .error e := rfl

theorem pure_eq_ok {ε α : Type} (x : α) :
    (pure x : Except ε α) = .ok x := rfl

theorem truthy_of_right {d : OptionDetails} {r : String}
    (hr : d.right = some r) : detailsTruthy (some d) = true := by
  simp [detailsTruthy, hr]

/-- C7: on an option Sell with right = Put (and a nonzero net
liquidation, so the option-limit division succeeds), the option group is
exactly the option-position-limit result followed by the
naked-put-collateral result, which blocks iff
`cash + bondValue * multiplier < quantity * strike * 100`. -/
theorem claim_C7 (cfg : RiskConfig) (symbol : String) (q : Int)
    (d : OptionDetails) (s : AccountSummary) (ps : List Position)
    (hr : d.right = some "P") (hnl : s.netLiquidation.getD 0 ≠ 0) :
    (check_option_risks cfg symbol "SELL" q (some d) s ps).map
        (fun l => l.map fun r => (r.check_name, r.level)) =
      .ok [("option_position_limit",
              if option_pct_of q d s ps > cfg.risk_max_option_position_pct
              then RiskLevel.block else RiskLevel.pass),
           ("naked_put_collateral",
              if available_collateral_of cfg s ps <
                  (q : Rat) * d.strike.getD 0 * 100
              then RiskLevel.block else RiskLevel.pass)] := by
  simp only [check_option_risks, truthy_of_right hr, Bool.not_true,
    Bool.false_eq_true, if_false, Option.getD_some, hr]
  rw [pydiv_of_ne _ _ hnl, ok_bind]
  by_cases h1 :
      (current_option_value_of ps + (q : Rat) * d.price.getD 0 * 100) /
          s.netLiquidation.getD 0 * 100 >
        cfg.risk_max_option_position_pct <;>
    by_cases h2 :
        s.cashBalance.getD 0 +
            bond_value_of ps * cfg.risk_bond_collateral_multiplier <
          (q : Rat) * d.strike.getD 0 * 100 <;>
    simp [option_pct_of, available_collateral_of, h1, h2, pure_eq_ok, Except.map]

/-- C8: on an option Sell with right = Call (and a nonzero net
liquidation), the option group is the option-position-limit result
followed by the covered-call Pass when an existing stock position in the
symbol holds at least `quantity * 100` shares, and the naked-call Block
otherwise. -/
theorem claim_C8 (cfg : RiskConfig) (symbol : String) (q : Int)
    (d : OptionDetails) (s : AccountSummary) (ps : List Position)
    (hr : d.right = some "C") (hnl : s.netLiquidation.getD 0 ≠ 0) :
    (check_option_risks cfg symbol "SELL" q (some d) s ps).map
        (fun l => l.map fun r => (r.check_name, r.level)) =
      .ok [("option_position_limit",
              if option_pct_of q d s ps > cfg.risk_max_option_position_pct
              then RiskLevel.block else RiskLevel.pass),
           (if has_underlying_shares symbol q ps then
              ("covered_call_check", RiskLevel.pass)
            else ("naked_call_check", RiskLevel.block))] := by
  simp only [check_option_risks, truthy_of_right hr, Bool.not_true,
    Bool.false_eq_true, if_false, Option.getD_some, hr]
  rw [pydiv_of_ne _ _ hnl, ok_bind]
  by_cases h1 :
      (current_option_value_of ps + (q : Rat) * d.price.getD 0 * 100) /
          s.netLiquidation.getD 0 * 100 >
        cfg.risk_max_option_position_pct <;>
    cases hu : has_underlying_shares symbol q ps <;>
    simp [option_pct_of, h1, hu, pure_eq_ok, Except.map]

/-- Witness for C7 at the spec's example: Sell 1 Put at strike 100 with
5000 cash and no bond positions blocks for insufficient collateral. -/
theorem claim_C7_witness :
    (check_option_risks defaultConfig "XYZ" "SELL" 1
          (some ⟨none, some "P", some 100, none, none⟩)
          ⟨some 100000, none, some 5000⟩ []).map
        (fun l => l.map fun r => (r.check_name, r.level)) =
      .ok [("option_position_limit", RiskLevel.pass),
           ("naked_put_collateral", RiskLevel.block)] := by
  have h := claim_C7 defaultConfig "XYZ" 1 ⟨none, some "P", some 100, none, none⟩
      ⟨some 100000, none, some 5000⟩ [] rfl (by norm_num)
  rw [h]
  norm_num [option_pct_of, available_collateral_of, current_option_value_of,
    bond_value_of, defaultConfig]

/-- Witness for C8: Sell 1 Call with 100 underlying shares passes as a
covered call; with no position it blocks as a naked call. -/
theorem claim_C8_witness :
    ((check_option_risks defaultConfig "SYM" "SELL" 1
          (some ⟨none, some "C", none, none, none⟩)
          ⟨some 100000, none, none⟩ [⟨⟨"SYM", "STK"⟩, 100, 10⟩]).map
        (fun l => l.map fun r => (r.check_name, r.level)) =
      .ok [("option_position_limit", RiskLevel.pass),
           ("covered_call_check", RiskLevel.pass)]) ∧
    ((check_option_risks defaultConfig "SYM" "SELL" 1
          (some ⟨none, some "C", none, none, none⟩)
          ⟨some 100000, none, none⟩ []).map
        (fun l => l.map fun r => (r.check_name, r.level)) =
      .ok [("option_position_limit", RiskLevel.pass),
           ("naked_call_check", RiskLevel.block)]) := by
  constructor
  · have h := claim_C8 defaultConfig "SYM" 1 ⟨none, some "C", none, none, none⟩
        ⟨some 100000, none, none⟩ [⟨⟨"SYM", "STK"⟩, 100, 10⟩] rfl (by norm_num)
    rw [h]
    with_unfolding_all rfl
  · have h := claim_C8 defaultConfig "SYM" 1 ⟨none, some "C", none, none, none⟩
        ⟨some 100000, none, none⟩ [] rfl (by norm_num)
    rw [h]
    with_unfolding_all rfl

/-- C2 (counterexample): an option Sell whose details carry a right but
no strike (a missing required structural field per the claim) produces a
result list with NO Block-level entry at all — the missing strike is
silently defaulted to 0 instead of being reported. -/
theorem claim_C2_counterexample :
    (check_all defaultConfig "place_order" "NVDA" "SELL" 1 none none
        ⟨some 100000, some 100000, some 100000⟩ [] "OPT"
        (some ⟨none, some "P", none, none, none⟩)).map has_blocking_issues =
      .ok false := by
  with_unfolding_all rfl

/-- C2 (amended): only a wholly missing (or empty) `optionDetails` dict
is reported as the structural Block `option_details_check`; individually
missing fields (strike, expiration, right) are silently defaulted and
produce no structural Block. The missing-details case never raises. -/
theorem claim_C2_amended (cfg : RiskConfig) (symbol action : String)
    (q : Int) (od : Option OptionDetails) (s : AccountSummary)
    (ps : List Position) (h : detailsTruthy od = false) :
    check_option_risks cfg symbol action q od s ps =
      .ok [⟨"option_details_check", RiskLevel.block,
        "Option details required for option trading", []⟩] := by
  simp [check_option_risks, h]

/-- Witness for C2 (amended) with absent option details. -/
theorem claim_C2_witness :
    check_option_risks defaultConfig "NVDA" "BUY" 1 none
        ⟨none, none, none⟩ [] =
      .ok [⟨"option_details_check", RiskLevel.block,
        "Option details required for option trading", []⟩] :=
  claim_C2_amended defaultConfig "NVDA" "BUY" 1 none ⟨none, none, none⟩ []
    rfl

/-- C1 (counterexample): with a present-but-zero `NetLiquidation` value,
a well-typed `place_order` evaluation raises `ZeroDivisionError` from the
unguarded division in the total-exposure check instead of returning a
result list (the single-position check guards zero and Blocks, but the
pipeline then divides anyway). -/
theorem claim_C1_counterexample :
    check_all defaultConfig "place_order" "AAPL" "BUY" 1 (some 10) (some 9)
        ⟨some 0, some 0, none⟩ [] "STK" none =
      .error "ZeroDivisionError" := by
  rfl

theorem check_total_ok (cfg : RiskConfig) (action : String) (q : Int)
    (price : Option Rat) (s : AccountSummary) (ps : List Position)
    (hnl : s.netLiquidation.getD 0 ≠ 0) :
    ∃ r, check_total_position_limit cfg action q price s ps = .ok r ∧
      r.check_name = "total_position_check" := by
  simp only [check_total_position_limit]
  rw [pydiv_of_ne _ _ hnl, ok_bind]
  refine ⟨_, (apply_ite pure _ _ _).symm, ?_⟩
  rw [apply_ite RiskCheckResult.check_name, ite_self]

theorem check_option_risks_ok (cfg : RiskConfig) (symbol action : String)
    (q : Int) (od : Option OptionDetails) (s : AccountSummary)
    (ps : List Position) (hnl : s.netLiquidation.getD 0 ≠ 0) :
    ∃ l, check_option_risks cfg symbol action q od s ps = .ok l := by
  by_cases ht : detailsTruthy od = true
  · cases od with
    | none => simp [detailsTruthy] at ht
    | some d =>
        simp only [check_option_risks, ht, Bool.not_true,
          Bool.false_eq_true, if_false, Option.getD_some]
        rw [pydiv_of_ne _ _ hnl, ok_bind]
        exact ⟨_, rfl⟩
  · have hf : detailsTruthy od = false := by
      revert ht
      cases detailsTruthy od <;> simp
    simp only [check_option_risks, hf, Bool.not_false, if_true]
    exact ⟨_, rfl⟩

theorem drawdown_loop_ok (cfg : RiskConfig) (symbol : String) (cur : Rat)
    (ps : List Position)
    (h : ∀ p ∈ ps, p.contract.symbol = symbol → p.avgCost ≠ 0) :
    ∃ o, drawdown_loop cfg symbol cur ps = .ok o := by
  induction ps with
  | nil => exact ⟨none, rfl⟩
  | cons p rest ih =>
      have hrest : ∀ p' ∈ rest, p'.contract.symbol = symbol →
          p'.avgCost ≠ 0 :=
        fun p' hm hs => h p' (List.mem_cons_of_mem _ hm) hs
      by_cases hm : p.contract.symbol = symbol
      · have havg := h p (List.mem_cons_self _ _) hm
        simp only [drawdown_loop]
        rw [if_pos hm, pydiv_of_ne _ _ havg, ok_bind]
        by_cases hd :
            (cur - p.avgCost) / p.avgCost * 100 < -cfg.risk_max_drawdown_pct
        · rw [if_pos hd]
          exact ⟨_, rfl⟩
        · rw [if_neg hd]
          exact ih hrest
      · simp only [drawdown_loop]
        rw [if_neg hm]
        exact ih hrest

theorem check_max_drawdown_ok (cfg : RiskConfig) (symbol : String)
    (price : Option Rat) (ps : List Position)
    (h : ∀ p ∈ ps, p.contract.symbol = symbol → p.avgCost ≠ 0) :
    ∃ r, check_max_drawdown cfg symbol price ps = .ok r := by
  unfold check_max_drawdown
  split
  · exact ⟨_, rfl⟩
  · obtain ⟨o, ho⟩ := drawdown_loop_ok cfg symbol (price.getD 0) ps h
    rw [ho, ok_bind]
    cases o
    · exact ⟨_, rfl⟩
    · exact ⟨_, rfl⟩

/-- C1 (amended): `check_all` is exception-free whenever the account's
net liquidation is nonzero and every position in the traded symbol has a
nonzero average cost; the zero-denominator cases of the total-exposure,
option-limit and drawdown divisions are NOT guarded in the code (only
the single-position check guards its zero denominator). -/
theorem claim_C1_amended (cfg : RiskConfig) (operation symbol action : String)
    (q : Int) (price stop : Option Rat) (s : AccountSummary)
    (ps : List Position) (ct : String) (od : Option OptionDetails)
    (hnl : s.netLiquidation.getD 0 ≠ 0)
    (hac : ∀ p ∈ ps, p.contract.symbol = symbol → p.avgCost ≠ 0) :
    (check_all cfg operation symbol action q price stop s ps ct
        od).toOption.isSome = true := by
  obtain ⟨rt, hrt, -⟩ := check_total_ok cfg action q price s ps hnl
  obtain ⟨lo, hlo⟩ := check_option_risks_ok cfg symbol action q od s ps hnl
  obtain ⟨rd, hrd⟩ := check_max_drawdown_ok cfg symbol price ps hac
  unfold check_all
  by_cases hop : operation = "place_order" <;>
    by_cases hct : ct = "OPT" <;>
    by_cases hsell : action = "SELL" <;>
    (try simp only [hsell] at hrt hlo) <;>
    simp [hop, hct, hsell, hrt, hlo, hrd, ok_bind, pure_eq_ok,
      Except.toOption]

/-- Witness for C1 (amended) at a concrete solvent account. -/
theorem claim_C1_witness :
    (check_all defaultConfig "place_order" "A" "BUY" 1 none (some 5)
        ⟨some 1000, some 1000, none⟩ [] "STK" none).toOption.isSome =
      true :=
  claim_C1_amended defaultConfig "place_order" "A" "BUY" 1 none (some 5)
    ⟨some 1000, some 1000, none⟩ [] "STK" none (by norm_num) (by simp)

theorem bind_ok_inv {ε α β : Type} {x : Except ε α} {f : α → Except ε β}
    {b : β} (h : x >>= f = .ok b) : ∃ a, x = .ok a ∧ f a = .ok b := by
  cases x with
  | error e => simp [error_bind] at h
  | ok a =>
      refine ⟨a, rfl, ?_⟩
      rwa [ok_bind] at h

theorem check_total_name (cfg : RiskConfig) (action : String) (q : Int)
    (price : Option Rat) (s : AccountSummary) (ps : List Position)
    (r : RiskCheckResult)
    (h : check_total_position_limit cfg action q price s ps = .ok r) :
    r.check_name = "total_position_check" := by
  simp only [check_total_position_limit] at h
  obtain ⟨a, -, hf⟩ := bind_ok_inv h
  split at hf <;> simp only [pure_eq_ok, Except.ok.injEq] at hf <;>
    subst hf <;> rfl

theorem drawdown_loop_name (cfg : RiskConfig) (symbol : String) (cur : Rat)
    (ps : List Position) (r : RiskCheckResult)
    (h : drawdown_loop cfg symbol cur ps = .ok (some r)) :
    r.check_name = "drawdown_check" ∧ r.level = RiskLevel.warning := by
  induction ps with
  | nil => simp [drawdown_loop] at h
  | cons p rest ih =>
      simp only [drawdown_loop] at h
      split at h
      · obtain ⟨a, -, hf⟩ := bind_ok_inv h
        split at hf
        · simp only [pure_eq_ok, Except.ok.injEq, Option.some.injEq] at hf
          subst hf
          exact ⟨rfl, rfl⟩
        · exact ih hf
      · exact ih h

theorem check_max_drawdown_props (cfg : RiskConfig) (symbol : String)
    (price : Option Rat) (ps : List Position) (r : RiskCheckResult)
    (h : check_max_drawdown cfg symbol price ps = .ok r) :
    r.check_name = "drawdown_check" ∧ r.level ≠ RiskLevel.block := by
  unfold check_max_drawdown at h
  split at h
  · simp only [Except.ok.injEq] at h
    subst h
    exact ⟨rfl, by decide⟩
  · obtain ⟨o, ho, hf⟩ := bind_ok_inv h
    cases o with
    | some res =>
        simp only [pure_eq_ok, Except.ok.injEq] at hf
        subst hf
        obtain ⟨hn, hw⟩ := drawdown_loop_name cfg symbol (price.getD 0) ps _ ho
        exact ⟨hn, by rw [hw]; decide⟩
    | none =>
        simp only [pure_eq_ok, Except.ok.injEq] at hf
        subst hf
        exact ⟨rfl, by decide⟩

theorem check_option_risks_names (cfg : RiskConfig) (symbol action : String)
    (q : Int) (od : Option OptionDetails) (s : AccountSummary)
    (ps : List Position) (l : List RiskCheckResult)
    (h : check_option_risks cfg symbol action q od s ps = .ok l) :
    l ≠ [] ∧ ∀ r ∈ l, r.check_name ∈
      ["option_details_check", "option_position_limit", "naked_call_check",
       "covered_call_check", "naked_put_collateral"] := by
  unfold check_option_risks at h
  split at h
  · simp only [Except.ok.injEq] at h
    subst h
    refine ⟨by simp, ?_⟩
    intro r hr
    simp only [List.mem_singleton] at hr
    subst hr
    simp
  · obtain ⟨a, -, hf⟩ := bind_ok_inv h
    simp only [pure_eq_ok, Except.ok.injEq] at hf
    subst hf
    refine ⟨by simp, ?_⟩
    intro r hr
    rcases List.mem_cons.mp hr with h1 | h2
    · subst h1
      split <;> simp
    · split at h2
      · split at h2
        · split at h2 <;>
            (simp only [List.mem_singleton] at h2; subst h2; simp)
        · split at h2
          · split at h2 <;>
              (simp only [List.mem_singleton] at h2; subst h2; simp)
          · simp at h2
      · simp at h2

theorem check_all_decomp (cfg : RiskConfig) (operation symbol action : String)
    (q : Int) (price stop : Option Rat) (s : AccountSummary)
    (ps : List Position) (ct : String) (od : Option OptionDetails)
    (l : List RiskCheckResult)
    (h : check_all cfg operation symbol action q price stop s ps ct od =
      .ok l) :
    ∃ common opt dd,
      l = common ++ opt ++ dd ∧
      (operation = "place_order" →
        ∃ rt, check_total_position_limit cfg action q price s ps = .ok rt ∧
          common =
            (if ct = "STK" then [check_stop_loss cfg action stop] else []) ++
              [check_margin_usage cfg s,
               check_position_size cfg symbol action q price s ps, rt,
               check_volatility cfg symbol od, check_liquidity symbol]) ∧
      (operation ≠ "place_order" → common = []) ∧
      (ct = "OPT" →
        check_option_risks cfg symbol action q od s ps = .ok opt) ∧
      (ct ≠ "OPT" → opt = []) ∧
      (action = "SELL" →
        ∃ rd, check_max_drawdown cfg symbol price ps = .ok rd ∧ dd = [rd]) ∧
      (action ≠ "SELL" → dd = []) := by
  unfold check_all at h
  obtain ⟨common, hcommon, h⟩ := bind_ok_inv h
  obtain ⟨opt, hopt, h⟩ := bind_ok_inv h
  obtain ⟨dd, hdd, h⟩ := bind_ok_inv h
  simp only [pure_eq_ok, Except.ok.injEq] at h
  subst h
  refine ⟨common, opt, dd, rfl, ?_, ?_, ?_, ?_, ?_, ?_⟩
  · intro hop
    rw [if_pos hop] at hcommon
    obtain ⟨rt, hrt, hc⟩ := bind_ok_inv hcommon
    simp only [pure_eq_ok, Except.ok.injEq] at hc
    subst hc
    exact ⟨rt, hrt, rfl⟩
  · intro hop
    rw [if_neg hop] at hcommon
    simp only [pure_eq_ok, Except.ok.injEq] at hcommon
    exact hcommon.symm
  · intro hct
    rwa [if_pos hct] at hopt
  · intro hct
    rw [if_neg hct] at hopt
    simp only [pure_eq_ok, Except.ok.injEq] at hopt
    exact hopt.symm
  · intro hsell
    rw [if_pos hsell] at hdd
    obtain ⟨rd, hrd, hf⟩ := bind_ok_inv hdd
    simp only [pure_eq_ok, Except.ok.injEq] at hf
    subst hf
    exact ⟨rd, hrd, rfl⟩
  · intro hsell
    rw [if_neg hsell] at hdd
    simp only [pure_eq_ok, Except.ok.injEq] at hdd
    exact hdd.symm

theorem check_stop_loss_name (cfg : RiskConfig) (a : String)
    (sl : Option Rat) :
    (check_stop_loss cfg a sl).check_name = "stop_loss_check" := by
  unfold check_stop_loss
  split
  · rfl
  · split <;> rfl

theorem check_margin_usage_name (cfg : RiskConfig) (s : AccountSummary) :
    (check_margin_usage cfg s).check_name = "margin_check" := by
  simp only [check_margin_usage]
  split
  · split <;> rfl
  · rfl

theorem check_position_size_name (cfg : RiskConfig) (symbol action : String)
    (q : Int) (price : Option Rat) (s : AccountSummary)
    (ps : List Position) :
    (check_position_size cfg symbol action q price s ps).check_name =
      "position_size_check" := by
  simp only [check_position_size]
  split
  · rfl
  · rw [apply_ite RiskCheckResult.check_name, ite_self]

theorem check_volatility_name (cfg : RiskConfig) (symbol : String)
    (od : Option OptionDetails) :
    (check_volatility cfg symbol od).check_name = "volatility_check" := by
  unfold check_volatility
  cases od with
  | none => rfl
  | some d =>
      cases hiv : d.implied_volatility with
      | none => simp [hiv]
      | some iv =>
          simp only [hiv]
          split <;> rfl

theorem drawdown_loop_nomatch (cfg : RiskConfig) (symbol : String)
    (cur : Rat) (ps : List Position)
    (h : ∀ p ∈ ps, p.contract.symbol ≠ symbol) :
    drawdown_loop cfg symbol cur ps = .ok none := by
  induction ps with
  | nil => rfl
  | cons p rest ih =>
      simp only [drawdown_loop]
      rw [if_neg (h p (List.mem_cons_self _ _))]
      exact ih (fun p' hm => h p' (List.mem_cons_of_mem _ hm))

theorem drawdown_loop_warning (cfg : RiskConfig) (symbol : String)
    (cur : Rat) (ps : List Position)
    (hall : ∀ p ∈ ps, p.contract.symbol = symbol → p.avgCost ≠ 0)
    (hex : ∃ p ∈ ps, p.contract.symbol = symbol ∧
      (cur - p.avgCost) / p.avgCost * 100 < -cfg.risk_max_drawdown_pct) :
    ∃ r, drawdown_loop cfg symbol cur ps = .ok (some r) ∧
      r.level = RiskLevel.warning := by
  induction ps with
  | nil => simp at hex
  | cons p rest ih =>
      have hrest : ∀ p' ∈ rest, p'.contract.symbol = symbol →
          p'.avgCost ≠ 0 :=
        fun p' hm hs => hall p' (List.mem_cons_of_mem _ hm) hs
      by_cases hm : p.contract.symbol = symbol
      · have havg := hall p (List.mem_cons_self _ _) hm
        simp only [drawdown_loop]
        rw [if_pos hm, pydiv_of_ne _ _ havg, ok_bind]
        by_cases hd :
            (cur - p.avgCost) / p.avgCost * 100 < -cfg.risk_max_drawdown_pct
        · rw [if_pos hd]
          exact ⟨_, rfl, rfl⟩
        · rw [if_neg hd]
          apply ih hrest
          rcases hex with ⟨pw, hmem, hsym, hlt⟩
          rcases List.mem_cons.mp hmem with he | hm2
          · subst he
            exact absurd hlt hd
          · exact ⟨pw, hm2, hsym, hlt⟩
      · simp only [drawdown_loop]
        rw [if_neg hm]
        apply ih hrest
        rcases hex with ⟨pw, hmem, hsym, hlt⟩
        rcases List.mem_cons.mp hmem with he | hm2
        · subst he
          exact absurd hsym hm
        · exact ⟨pw, hm2, hsym, hlt⟩

/-- C9: the drawdown check never produces a Block: it passes with no
price, passes with no matching position, reports a Warning when a
matching position's drawdown exceeds the limit, and (via `check_all`) is
only ever run for Sell actions. -/
theorem claim_C9 (cfg : RiskConfig) (symbol : String) (price : Option Rat)
    (ps : List Position) :
    (∀ r, check_max_drawdown cfg symbol price ps = .ok r →
      r.level ≠ RiskLevel.block) ∧
    (check_max_drawdown cfg symbol none ps =
      .ok ⟨"drawdown_check", RiskLevel.pass,
        "No price provided for drawdown check", []⟩) ∧
    ((∀ p ∈ ps, p.contract.symbol ≠ symbol) →
      (check_max_drawdown cfg symbol price ps).map
          (fun r => (r.check_name, r.level)) =
        .ok ("drawdown_check", RiskLevel.pass)) ∧
    (∀ cur, price = some cur → cur ≠ 0 →
      (∀ p ∈ ps, p.contract.symbol = symbol → p.avgCost ≠ 0) →
      (∃ p ∈ ps, p.contract.symbol = symbol ∧
        (cur - p.avgCost) / p.avgCost * 100 < -cfg.risk_max_drawdown_pct) →
      (check_max_drawdown cfg symbol price ps).map (fun r => r.level) =
        .ok RiskLevel.warning) ∧
    (∀ operation action : String, ∀ q : Int, ∀ stop : Option Rat,
      ∀ s : AccountSummary, ∀ ct : String, ∀ od : Option OptionDetails,
      ∀ l, action ≠ "SELL" →
        check_all cfg operation symbol action q price stop s ps ct od =
          .ok l →
        "drawdown_check" ∉ l.map RiskCheckResult.check_name) := by
  refine ⟨?_, ?_, ?_, ?_, ?_⟩
  · exact fun r h => (check_max_drawdown_props cfg symbol price ps r h).2
  · rfl
  · intro hnm
    unfold check_max_drawdown
    split
    · rfl
    · rw [drawdown_loop_nomatch cfg symbol _ ps hnm, ok_bind]
      rfl
  · intro cur hp hc hall hex
    subst hp
    unfold check_max_drawdown
    rw [if_neg (by simp [pyTruthy, hc])]
    simp only [Option.getD_some]
    obtain ⟨r, hr, hw⟩ := drawdown_loop_warning cfg symbol cur ps hall hex
    rw [hr, ok_bind]
    simp [pure_eq_ok, Except.map, hw]
  · intro operation action q stop s ct od l hns hok
    obtain ⟨common, opt, dd, hl, hplace, hnplace, hoptOk, hoptNil, -,
      hddNil⟩ :=
      check_all_decomp cfg operation symbol action q price stop s ps ct od
        l hok
    rw [hddNil hns] at hl
    subst hl
    intro hmem
    simp only [List.map_append, List.append_nil, List.mem_append] at hmem
    rcases hmem with hmem | hmem
    · by_cases hop : operation = "place_order"
      · obtain ⟨rt, hrt, hc⟩ := hplace hop
        subst hc
        have hrtn := check_total_name cfg action q price s ps rt hrt
        by_cases hstk : ct = "STK" <;>
          simp [hstk, hrtn, check_stop_loss_name, check_margin_usage_name,
            check_position_size_name, check_volatility_name,
            check_liquidity] at hmem
      · rw [hnplace hop] at hmem
        simp at hmem
    · by_cases hct : ct = "OPT"
      · have hnames := (check_option_risks_names cfg symbol action q od s
          ps opt (hoptOk hct)).2
        simp only [List.mem_map] at hmem
        obtain ⟨r, hr, hn⟩ := hmem
        have hmem2 := hnames r hr
        rw [hn] at hmem2
        simp at hmem2
      · rw [hoptNil hct] at hmem
        simp at hmem

/-- Witness for C9: a Sell at 50 against average cost 100 yields a
Warning (a 50% drawdown), and a missing price yields the trivial Pass. -/
theorem claim_C9_witness :
    ((check_max_drawdown defaultConfig "A" (some 50)
        [⟨⟨"A", "STK"⟩, 1, 100⟩]).map (fun r => r.level) =
      .ok RiskLevel.warning) ∧
    (check_max_drawdown defaultConfig "A" none [] =
      .ok ⟨"drawdown_check", RiskLevel.pass,
        "No price provided for drawdown check", []⟩) := by
  constructor
  · exact (claim_C9 defaultConfig "A" (some 50)
        [⟨⟨"A", "STK"⟩, 1, 100⟩]).2.2.2.1 50 rfl (by norm_num)
      (by
        intro p hp hs
        simp only [List.mem_singleton] at hp
        subst hp
        norm_num)
      ⟨⟨⟨"A", "STK"⟩, 1, 100⟩, by simp, rfl, by norm_num [defaultConfig]⟩
  · exact (claim_C9 defaultConfig "A" none []).2.1

/-- C4: every successful `place_order` evaluation returns the checks in
the fixed order stop-loss (stock only), margin, single-position,
total-exposure, volatility, liquidity, followed by the option group
exactly when the contract is an option and the drawdown check exactly
when the action is Sell; no check is dropped and the list is
non-empty. -/
theorem claim_C4 (cfg : RiskConfig) (symbol action : String) (q : Int)
    (price stop : Option Rat) (s : AccountSummary) (ps : List Position)
    (ct : String) (od : Option OptionDetails) (l : List RiskCheckResult)
    (hok : check_all cfg "place_order" symbol action q price stop s ps ct
      od = .ok l) :
    l.map RiskCheckResult.check_name =
      (if ct = "STK" then ["stop_loss_check"] else []) ++
        ["margin_check", "position_size_check", "total_position_check",
         "volatility_check", "liquidity_check"] ++
        (if ct = "OPT" then option_names cfg symbol action q od s ps
         else []) ++
        (if action = "SELL" then ["drawdown_check"] else []) ∧
    (ct = "OPT" → option_names cfg symbol action q od s ps ≠ []) ∧
    l ≠ [] := by
  obtain ⟨common, opt, dd, hl, hplace, -, hoptOk, hoptNil, hddOk, hddNil⟩ :=
    check_all_decomp cfg "place_order" symbol action q price stop s ps ct
      od l hok
  obtain ⟨rt, hrt, hc⟩ := hplace rfl
  subst hl
  subst hc
  have hrtn := check_total_name cfg action q price s ps rt hrt
  have hoptNames : opt.map RiskCheckResult.check_name =
      (if ct = "OPT" then option_names cfg symbol action q od s ps
       else []) := by
    by_cases hct : ct = "OPT"
    · rw [if_pos hct]
      unfold option_names
      rw [hoptOk hct]
      rfl
    · rw [if_neg hct, hoptNil hct]
      rfl
  have hddNames : dd.map RiskCheckResult.check_name =
      (if action = "SELL" then ["drawdown_check"] else []) := by
    by_cases hsell : action = "SELL"
    · obtain ⟨rd, hrd, hdd⟩ := hddOk hsell
      subst hdd
      rw [if_pos hsell]
      simp [(check_max_drawdown_props cfg symbol price ps rd hrd).1]
    · rw [if_neg hsell, hddNil hsell]
      rfl
  have hiteNames :
      (if ct = "STK" then [check_stop_loss cfg action stop] else []).map
          RiskCheckResult.check_name =
        (if ct = "STK" then ["stop_loss_check"] else []) := by
    split <;> simp [check_stop_loss_name]
  refine ⟨?_, ?_, ?_⟩
  · simp only [List.map_append, hoptNames, hddNames, hiteNames,
      List.map_cons, List.map_nil, hrtn, check_margin_usage_name,
      check_position_size_name, check_volatility_name, check_liquidity,
      List.append_assoc]
  · intro hct
    have h1 := (check_option_risks_names cfg symbol action q od s ps opt
      (hoptOk hct)).1
    unfold option_names
    rw [hoptOk hct]
    simpa [Except.toOption] using h1
  · simp

/-- Witness for C4 at a concrete stock Buy `place_order` evaluation. -/
theorem claim_C4_witness :
    sampleResults.map RiskCheckResult.check_name =
      (if "STK" = "STK" then ["stop_loss_check"] else []) ++
        ["margin_check", "position_size_check", "total_position_check",
         "volatility_check", "liquidity_check"] ++
        (if "STK" = "OPT" then
          option_names defaultConfig "A" "BUY" 1 none
            ⟨some 1000, some 1000, none⟩ []
         else []) ++
        (if "BUY" = "SELL" then ["drawdown_check"] else []) ∧
    ("STK" = "OPT" →
      option_names defaultConfig "A" "BUY" 1 none
        ⟨some 1000, some 1000, none⟩ [] ≠ []) ∧
    sampleResults ≠ [] :=
  claim_C4 defaultConfig "A" "BUY" 1 none (some 5)
    ⟨some 1000, some 1000, none⟩ [] "STK" none sampleResults
    (by with_unfolding_all rfl)

/-- Witness for C3 at the spec's concentration boundary: Buy 50 at 150
over an existing 15000 position in a 100000 account blocks at 22.5%,
while Buy 50 at 100 lands exactly on 20.0% and passes. -/
theorem claim_C3_witness :
    ((check_position_size defaultConfig "AAPL" "BUY" 50 (some 150)
        ⟨some 100000, none, none⟩ [⟨⟨"AAPL", "STK"⟩, 100, 150⟩]).level =
      RiskLevel.block) ∧
    ((check_position_size defaultConfig "AAPL" "BUY" 50 (some 100)
        ⟨some 100000, none, none⟩ [⟨⟨"AAPL", "STK"⟩, 100, 150⟩]).level =
      RiskLevel.pass) := by
  constructor
  · have h := (claim_C3 defaultConfig "AAPL" "BUY" 50 (some 150)
        ⟨some 100000, none, none⟩ [⟨⟨"AAPL", "STK"⟩, 100, 150⟩]).2.1
    rw [h]
    with_unfolding_all rfl
  · have h := (claim_C3 defaultConfig "AAPL" "BUY" 50 (some 100)
        ⟨some 100000, none, none⟩ [⟨⟨"AAPL", "STK"⟩, 100, 150⟩]).2.1
    rw [h]
    with_unfolding_all rfl
